import Mathlib

/-!
Shallow embedding of the wallet-ledger core of this repository
(server/storage.ts, server/patterns/walletFactory.ts,
server/errors/InsufficientFundsException.ts).

Modelling choices:
* Balances, limits and amounts are exact rationals.  The database column is
  decimal(12,2) and the code round-trips balances through strings with
  parseFloat / toFixed(2); the function toFixed2 below models the
  two-decimal rounding performed by toFixed(2) on the exact value, and the
  predicate TwoDec states that a rational is exactly representable with two
  decimal digits.
* The database is a LedgerState: the list of wallet rows, the list of
  transaction rows, and a counter supplying fresh transaction ids.
* Store writes that happen inside the try blocks of deposit and transfer
  can fail in the real system; the operations take an explicit failure
  oracle (failAt) naming the first mutation step that throws, together
  with the thrown message, so that the catch blocks of the source can be
  modelled faithfully.  failAt = none is the ordinary run.
* Timestamps (createdAt / updatedAt) and the fire-and-forget audit
  observers (TransactionLogger, WalletSerializer) are omitted: the spec
  treats them as external collaborators that never affect ledger state.
-/

namespace WalletLedger

/-- Model of JavaScript toFixed(2) applied to an exact value: round to the
nearest multiple of 1/100 (ties settled upward; on the doubles produced by
the source arithmetic an exact tie cannot arise for in-range values). -/
def toFixed2 (q : ℚ) : ℚ := (round (q * 100) : ℤ) / 100

/-- The rational is exactly representable in 2-decimal fixed point. -/
def TwoDec (q : ℚ) : Prop := ∃ n : ℤ, q = (n : ℚ) / 100

/-- Wallet row (table wallets in shared/schema): id, owning user, balance,
tier and per-transaction limit.  decimal columns are exact rationals. -/
structure Wallet where
  id : String
  userId : String
  balance : ℚ
  walletType : String
  transactionLimit : ℚ
  deriving Repr, DecidableEq

/-- Transaction row (table transactions in shared/schema).  The uuid primary
key is modelled by a Nat drawn from the state counter. -/
structure Transaction where
  id : Nat
  walletId : String
  amount : ℚ
  type : String
  paymentMode : String
  status : String
  description : Option String
  recipientWalletId : Option String
  recipientUserId : Option String
  errorMessage : Option String
  deriving Repr, DecidableEq

/-- Insert shape for createTransaction (InsertTransaction in the schema):
everything except the generated id and the errorMessage column. -/
structure InsertTransaction where
  walletId : String
  amount : ℚ
  type : String
  paymentMode : String
  status : String
  description : Option String
  recipientWalletId : Option String
  recipientUserId : Option String
  deriving Repr, DecidableEq

/-- The persistent store: wallet rows, transaction rows, fresh-id counter. -/
structure LedgerState where
  wallets : List Wallet
  txs : List Transaction
  nextTxId : Nat
  deriving Repr, DecidableEq

/-- The error taxonomy of the core.  walletNotFound, insufficientFunds and
limitExceeded correspond to the explicit throw sites of storage.ts (the
InsufficientFundsException class carries available balance, requested
amount and wallet id); unknownWalletTier to the default branch of
WalletFactory.createWallet; storeWriteFailed wraps an underlying
persistence error raised by a store write. -/
inductive WalletError where
  | walletNotFound : WalletError
  | insufficientFunds (available requested : ℚ) (walletId : String) : WalletError
  | limitExceeded (limit : ℚ) : WalletError
  | storeWriteFailed (msg : String) : WalletError
  | unknownWalletTier (tier : String) : WalletError
  deriving Repr, DecidableEq

/-- db.select().from(wallets).where(eq(wallets.id, walletId)). -/
def findWallet (s : LedgerState) (walletId : String) : Option Wallet :=
  s.wallets.find? (fun w => w.id == walletId)

/-- DatabaseStorage.updateWalletBalance: update the balance of the row whose
id matches. -/
def updateWalletBalance (s : LedgerState) (walletId : String) (newBalance : ℚ) :
    LedgerState :=
  { s with wallets :=
      s.wallets.map (fun w =>
        if w.id == walletId then { w with balance := newBalance } else w) }

/-- DatabaseStorage.createTransaction: insert a row, returning it with its
generated id. -/
def createTransaction (s : LedgerState) (it : InsertTransaction) :
    LedgerState × Transaction :=
  let t : Transaction :=
    { id := s.nextTxId
      walletId := it.walletId
      amount := it.amount
      type := it.type
      paymentMode := it.paymentMode
      status := it.status
      description := it.description
      recipientWalletId := it.recipientWalletId
      recipientUserId := it.recipientUserId
      errorMessage := none }
  ({ s with txs := s.txs ++ [t], nextTxId := s.nextTxId + 1 }, t)

/-- DatabaseStorage.updateTransactionStatus: set status and errorMessage of
the row whose id matches (the errorMessage column is overwritten with the
argument, which is NULL when absent). -/
def updateTransactionStatus (s : LedgerState) (txId : Nat) (status : String)
    (errMsg : Option String) : LedgerState :=
  { s with txs :=
      s.txs.map (fun t =>
        if t.id == txId then { t with status := status, errorMessage := errMsg }
        else t) }

/-- Failure oracle helper: the message thrown at mutation step k, if any. -/
def shouldFail (failAt : Option (Nat × String)) (k : Nat) : Option String :=
  match failAt with
  | some (j, m) => if j = k then some m else none
  | none => none

/-- DatabaseStorage.deposit, sequential body (the surrounding
lock.runExclusive only serializes callers).  Mutation steps inside the try
block: 1 = balance write, 2 = success status write.  The pair is the store
after the operation and the returned transaction or thrown error. -/
def deposit (s : LedgerState) (walletId : String) (amount : ℚ)
    (paymentMode : String) (description : Option String)
    (failAt : Option (Nat × String)) :
    LedgerState × Except WalletError Transaction :=
  match findWallet s walletId with
  | none => (s, .error .walletNotFound)
  | some wallet =>
    if amount > wallet.transactionLimit then
      (s, .error (.limitExceeded wallet.transactionLimit))
    else
      let p := createTransaction s
        { walletId := walletId
          amount := amount
          type := "deposit"
          paymentMode := paymentMode
          status := "pending"
          description := description
          recipientWalletId := none
          recipientUserId := none }
      let s1 := p.1
      let tx := p.2
      match shouldFail failAt 1 with
      | some msg =>
          (updateTransactionStatus s1 tx.id "failed" (some msg),
           .error (.storeWriteFailed msg))
      | none =>
        let newBalance := toFixed2 (wallet.balance + amount)
        let s2 := updateWalletBalance s1 walletId newBalance
        match shouldFail failAt 2 with
        | some msg =>
            (updateTransactionStatus s2 tx.id "failed" (some msg),
             .error (.storeWriteFailed msg))
        | none =>
            (updateTransactionStatus s2 tx.id "success" none,
             .ok { tx with status := "success", errorMessage := none })

/-- DatabaseStorage.transfer, sequential body.  Mutation steps inside the
try block: 1 = debit write, 2 = credit write, 3 = insert of the transfer_in
row, 4 = success status write on the transfer_out row.  Note that the
credit at step 2 is computed from the snapshot of the recipient wallet read
before the debit. -/
def transfer (s : LedgerState) (fromWalletId toWalletId toUserId : String)
    (amount : ℚ) (description : Option String)
    (failAt : Option (Nat × String)) :
    LedgerState × Except WalletError Transaction :=
  match findWallet s fromWalletId, findWallet s toWalletId with
  | some fromWallet, some toWallet =>
    let currentBalance := fromWallet.balance
    if currentBalance < amount then
      (s, .error (.insufficientFunds currentBalance amount fromWalletId))
    else if amount > fromWallet.transactionLimit then
      (s, .error (.limitExceeded fromWallet.transactionLimit))
    else
      let p := createTransaction s
        { walletId := fromWalletId
          amount := amount
          type := "transfer_out"
          paymentMode := "WalletBalance"
          status := "pending"
          description := description
          recipientWalletId := some toWalletId
          recipientUserId := some toUserId }
      let s1 := p.1
      let outTx := p.2
      match shouldFail failAt 1 with
      | some msg =>
          (updateTransactionStatus s1 outTx.id "failed" (some msg),
           .error (.storeWriteFailed msg))
      | none =>
        let newFromBalance := toFixed2 (currentBalance - amount)
        let s2 := updateWalletBalance s1 fromWalletId newFromBalance
        match shouldFail failAt 2 with
        | some msg =>
            (updateTransactionStatus s2 outTx.id "failed" (some msg),
             .error (.storeWriteFailed msg))
        | none =>
          let newToBalance := toFixed2 (toWallet.balance + amount)
          let s3 := updateWalletBalance s2 toWalletId newToBalance
          match shouldFail failAt 3 with
          | some msg =>
              (updateTransactionStatus s3 outTx.id "failed" (some msg),
               .error (.storeWriteFailed msg))
          | none =>
            let q := createTransaction s3
              { walletId := toWalletId
                amount := amount
                type := "transfer_in"
                paymentMode := "WalletBalance"
                status := "success"
                description := description
                recipientWalletId := some fromWalletId
                recipientUserId := none }
            let s4 := q.1
            match shouldFail failAt 4 with
            | some msg =>
                (updateTransactionStatus s4 outTx.id "failed" (some msg),
                 .error (.storeWriteFailed msg))
            | none =>
                (updateTransactionStatus s4 outTx.id "success" none,
                 .ok { outTx with status := "success", errorMessage := none })
  | _, _ => (s, .error .walletNotFound)

/-- Tier configuration produced by WalletFactory.createWallet. -/
structure WalletConfig where
  walletType : String
  transactionLimit : ℚ
  deriving Repr, DecidableEq

/-- WalletFactory.createWallet: fixed tier table, default branch throws. -/
def walletFactoryCreate (tier : String) : Except WalletError WalletConfig :=
  if tier = "Basic" then
    .ok { walletType := "Basic", transactionLimit := 1000 }
  else if tier = "Premium" then
    .ok { walletType := "Premium", transactionLimit := 10000 }
  else
    .error (.unknownWalletTier tier)

/-- DatabaseStorage.createWallet: derive the config from the tier, then
insert a wallet row with balance 0.00.  The fresh row id is supplied by the
caller (the database generates a uuid). -/
def createWallet (s : LedgerState) (userId newWalletId tier : String) :
    LedgerState × Except WalletError Wallet :=
  match walletFactoryCreate tier with
  | .error e => (s, .error e)
  | .ok config =>
    let w : Wallet :=
      { id := newWalletId
        userId := userId
        balance := 0
        walletType := config.walletType
        transactionLimit := config.transactionLimit }
    ({ s with wallets := s.wallets ++ [w] }, .ok w)

/-- Caller-side discrimination of the error taxonomy: the business-rule
rejections (the InsufficientFundsException class and the limit throw site,
whose error carries the limit) versus everything infrastructural.  In
routes.ts the caller discriminates on the error value it receives; here
the discrimination is a total Boolean function on the taxonomy. -/
def isBusinessRejection : WalletError → Bool
  | .insufficientFunds _ _ _ => true
  | .limitExceeded _ => true
  | _ => false

/-! ### Operation sequences, for the non-negativity invariant -/

/-- One engine operation: wallet provisioning, deposit or transfer,
including the failure oracle of the mutation phase. -/
inductive WOp where
  | provision (userId newWalletId tier : String) : WOp
  | dep (walletId : String) (amount : ℚ) (paymentMode : String)
      (description : Option String) (failAt : Option (Nat × String)) : WOp
  | xfer (fromWalletId toWalletId toUserId : String) (amount : ℚ)
      (description : Option String) (failAt : Option (Nat × String)) : WOp

/-- The stated preconditions on an operation: amounts are positive, and a
transfer names two distinct wallets. -/
def opOK : WOp → Bool
  | .provision _ _ _ => true
  | .dep _ a _ _ _ => decide (0 < a)
  | .xfer f t _ a _ _ => decide (0 < a) && decide (f ≠ t)

/-- Run one operation against the store, keeping the resulting store. -/
def applyOp (s : LedgerState) : WOp → LedgerState
  | .provision u wid tier => (createWallet s u wid tier).1
  | .dep wid a pm d f => (deposit s wid a pm d f).1
  | .xfer fw tw tu a d f => (transfer s fw tw tu a d f).1

/-- The store before any wallet exists. -/
def initialState : LedgerState := { wallets := [], txs := [], nextTxId := 0 }

/-- Every stored balance is non-negative. -/
def allNonneg (s : LedgerState) : Bool :=
  s.wallets.all (fun w => decide (0 ≤ w.balance))

/-! ### Lock acquisition order and the two-transfer lock automaton -/

/-- Lock acquisition order of transfer: the source sorts the two wallet ids
([fromWalletId, toWalletId].sort()) and acquires the lock of the first,
then of the second. -/
def lockOrder (a b : String) : String × String :=
  if a ≤ b then (a, b) else (b, a)

/-- A mutex acquisition is enabled exactly when nobody holds the lock; the
async-mutex Mutex of the source is not reentrant, so the holder itself is
included. -/
def acquireEnabled (held : List String) (l : String) : Bool :=
  !(held.contains l)

/-- Phase of one transfer in the two-lock protocol: 0 = holds nothing,
1 = holds the first (smaller) lock, 2 = holds both, 3 = done, both
released.  The first lock is held during phases 1 and 2. -/
def holdsFirst (p : Nat) : Bool := p = 1 || p = 2

/-- The second lock is held during phase 2 only. -/
def holdsSecond (p : Nat) : Bool := p = 2

/-- Moves available to one transfer given the phase of the other transfer
over the same sorted lock pair: acquire the first lock when free, then the
second when free, then finish and release both. -/
def procSteps (own other : Nat) : List Nat :=
  if own = 0 then (if holdsFirst other then [] else [1])
  else if own = 1 then (if holdsSecond other then [] else [2])
  else if own = 2 then [3]
  else []

/-- Joint moves of the two concurrent transfers. -/
def lockSteps (s : Nat × Nat) : List (Nat × Nat) :=
  (procSteps s.1 s.2).map (fun p => (p, s.2)) ++
  (procSteps s.2 s.1).map (fun p => (s.1, p))

/-- States reachable from the given frontier in at most fuel joint moves. -/
def reachAux : Nat → List (Nat × Nat) → List (Nat × Nat)
  | 0, acc => acc
  | n + 1, acc => reachAux n (((acc.map lockSteps).flatten ++ acc).dedup)

/-- All states reachable by two concurrent opposite-direction transfers
over the same wallet pair, starting with neither lock held. -/
def twoLockReach : List (Nat × Nat) := reachAux 8 [(0, 0)]

/-- Progress: every reachable state either is the final state (both
transfers completed) or has an enabled move — there is no deadlock. -/
def twoLockProgress : Bool :=
  twoLockReach.all (fun s => decide (s = (3, 3)) || !(lockSteps s).isEmpty)

/-- Every joint move strictly increases the phase sum, which is bounded by
6, so every maximal execution is finite and, by twoLockProgress, ends with
both transfers completed. -/
def twoLockRanked : Bool :=
  twoLockReach.all (fun s => (lockSteps s).all (fun s2 => s.1 + s.2 < s2.1 + s2.2))

/-! ### Fixtures used by the concrete witnesses -/

/-- A Basic wallet with balance 500.00 and limit 1000.00. -/
def wA : Wallet :=
  { id := "wa", userId := "ua", balance := 500, walletType := "Basic",
    transactionLimit := 1000 }

/-- A Basic wallet with balance 0.00 and limit 1000.00. -/
def wB : Wallet :=
  { id := "wb", userId := "ub", balance := 0, walletType := "Basic",
    transactionLimit := 1000 }

/-- A store holding the two fixture wallets and no transactions. -/
def sAB : LedgerState := { wallets := [wA, wB], txs := [], nextTxId := 0 }

/-! ### Arithmetic lemmas about two-decimal fixed point -/

theorem round_mono_rat {x y : ℚ} (h : x ≤ y) : round x ≤ round y := by
  rw [round_eq, round_eq]
  exact Int.floor_le_floor (by linarith)

theorem toFixed2_nonneg {q : ℚ} (h : 0 ≤ q) : 0 ≤ toFixed2 q := by
  unfold toFixed2
  have h0 : (0:ℤ) = round ((0:ℚ)) := by simp
  have hr : (0:ℤ) ≤ round (q * 100) := by
    rw [h0]; exact round_mono_rat (by positivity)
  positivity

theorem toFixed2_eq_of_twoDec {q : ℚ} (h : TwoDec q) : toFixed2 q = q := by
  obtain ⟨n, rfl⟩ := h
  unfold toFixed2
  have h100 : (n : ℚ) / 100 * 100 = (n : ℚ) := by field_simp
  rw [h100, round_intCast]

theorem twoDec_add {a b : ℚ} (ha : TwoDec a) (hb : TwoDec b) : TwoDec (a + b) := by
  obtain ⟨n, rfl⟩ := ha
  obtain ⟨m, rfl⟩ := hb
  exact ⟨n + m, by push_cast; ring⟩

theorem twoDec_sub {a b : ℚ} (ha : TwoDec a) (hb : TwoDec b) : TwoDec (a - b) := by
  obtain ⟨n, rfl⟩ := ha
  obtain ⟨m, rfl⟩ := hb
  exact ⟨n - m, by push_cast; ring⟩

/-- Rounding robustness: any approximation of a two-decimal value that is in
error by strictly less than half a cent rounds back to the exact value.
This is the reason the toFixed(2) pipeline of the source exhibits no binary
floating-point drift: for balances within the decimal(12,2) range the
double arithmetic of the source stays well within half a cent of the exact
rational result. -/
theorem toFixed2_approx {t d : ℚ} (ht : TwoDec t) (hd : |d - t| < 1 / 200) :
    toFixed2 d = t := by
  obtain ⟨n, rfl⟩ := ht
  unfold toFixed2
  rw [abs_lt] at hd
  have hlo : (n : ℚ) ≤ d * 100 + 1 / 2 := by
    have := hd.1
    have h1 : (n : ℚ) / 100 - 1 / 200 < d := by linarith
    nlinarith
  have hhi : d * 100 + 1 / 2 < (n : ℚ) + 1 := by
    have := hd.2
    nlinarith
  have hfl : round (d * 100) = n := by
    rw [round_eq, Int.floor_eq_iff]
    constructor
    · exact_mod_cast hlo
    · have : ((n : ℚ) + 1) = ((n + 1 : ℤ) : ℚ) := by push_cast; ring
      exact_mod_cast hhi
  rw [hfl]

/-! ### Store lemmas -/

theorem wallet_update_id (w : Wallet) (walletId : String) (nb : ℚ) :
    (if w.id == walletId then { w with balance := nb } else w).id = w.id := by
  by_cases h : w.id == walletId <;> simp [h]

theorem findWallet_updateWalletBalance (s : LedgerState) (walletId wid : String)
    (nb : ℚ) :
    findWallet (updateWalletBalance s walletId nb) wid =
      (findWallet s wid).map
        (fun w => if w.id == walletId then { w with balance := nb } else w) := by
  unfold findWallet updateWalletBalance
  rw [List.find?_map]
  have hcomp : ((fun w => w.id == wid) ∘ fun w =>
      if w.id == walletId then { w with balance := nb } else w) =
      (fun w : Wallet => w.id == wid) := by
    funext w
    by_cases h : w.id == walletId <;> simp [Function.comp, h]
  rw [hcomp]

theorem findWallet_id {s : LedgerState} {wid : String} {w : Wallet}
    (h : findWallet s wid = some w) : w.id = wid := by
  have := List.find?_some h
  simpa using this

/-- Explicit shape of a successful transfer: both wallets found, balance and
limit checks pass, no store-write failure. -/
theorem transfer_success_eq {s : LedgerState} {fid tid uid : String}
    {fw tw : Wallet} {a : ℚ} {d : Option String}
    (hf : findWallet s fid = some fw) (ht : findWallet s tid = some tw)
    (hba : ¬ fw.balance < a) (hl : ¬ a > fw.transactionLimit) :
    transfer s fid tid uid a d none =
      ({ wallets :=
           (s.wallets.map (fun w =>
             if w.id == fid then { w with balance := toFixed2 (fw.balance - a) }
             else w)).map
             (fun w =>
               if w.id == tid then { w with balance := toFixed2 (tw.balance + a) }
               else w)
         txs :=
           s.txs.map
             (fun t : Transaction =>
               if t.id == s.nextTxId then
                 { t with status := "success", errorMessage := none }
               else t) ++
           [{ id := s.nextTxId, walletId := fid, amount := a,
              type := "transfer_out", paymentMode := "WalletBalance",
              status := "success", description := d,
              recipientWalletId := some tid, recipientUserId := some uid,
              errorMessage := none },
            { id := s.nextTxId + 1, walletId := tid, amount := a,
              type := "transfer_in", paymentMode := "WalletBalance",
              status := "success", description := d,
              recipientWalletId := some fid, recipientUserId := none,
              errorMessage := none }]
         nextTxId := s.nextTxId + 2 },
       .ok { id := s.nextTxId, walletId := fid, amount := a,
             type := "transfer_out", paymentMode := "WalletBalance",
             status := "success", description := d,
             recipientWalletId := some tid, recipientUserId := some uid,
             errorMessage := none }) := by
  unfold transfer
  rw [hf, ht]
  simp [hba, hl, createTransaction, updateWalletBalance, updateTransactionStatus,
    shouldFail]

/-- Explicit shape of a successful deposit: wallet found, limit check
passes, no store-write failure. -/
theorem deposit_success_eq {s : LedgerState} {wid : String} {w : Wallet}
    {a : ℚ} {pm : String} {d : Option String}
    (hf : findWallet s wid = some w) (hl : ¬ a > w.transactionLimit) :
    deposit s wid a pm d none =
      ({ wallets :=
           s.wallets.map (fun x =>
             if x.id == wid then { x with balance := toFixed2 (w.balance + a) }
             else x)
         txs :=
           s.txs.map
             (fun t : Transaction =>
               if t.id == s.nextTxId then
                 { t with status := "success", errorMessage := none }
               else t) ++
           [{ id := s.nextTxId, walletId := wid, amount := a,
              type := "deposit", paymentMode := pm,
              status := "success", description := d,
              recipientWalletId := none, recipientUserId := none,
              errorMessage := none }]
         nextTxId := s.nextTxId + 1 },
       .ok { id := s.nextTxId, walletId := wid, amount := a,
             type := "deposit", paymentMode := pm,
             status := "success", description := d,
             recipientWalletId := none, recipientUserId := none,
             errorMessage := none }) := by
  unfold deposit
  rw [hf]
  simp [hl, createTransaction, updateWalletBalance, updateTransactionStatus,
    shouldFail]

/-- find? over a balance-update map: updating balances never changes which
row is found, only its balance field. -/
theorem find?_updBal (l : List Wallet) (walletId wid : String) (nb : ℚ) :
    (l.map (fun w =>
      if w.id == walletId then { w with balance := nb } else w)).find?
        (fun w => w.id == wid) =
      (l.find? (fun w => w.id == wid)).map
        (fun w => if w.id == walletId then { w with balance := nb } else w) := by
  rw [List.find?_map]
  have hcomp : ((fun w : Wallet => w.id == wid) ∘ fun w =>
      if w.id == walletId then { w with balance := nb } else w) =
      (fun w : Wallet => w.id == wid) := by
    funext w
    by_cases h : w.id == walletId <;> simp [Function.comp, h]
  rw [hcomp]

/-- The two balance writes of a successful transfer, read back from the
store: the sender holds exactly the old balance minus the amount, the
recipient exactly the old balance plus the amount. -/
theorem transfer_balances_eq {s : LedgerState} {fid tid uid : String}
    {fw tw : Wallet} {a : ℚ} {d : Option String}
    (hf : findWallet s fid = some fw) (ht : findWallet s tid = some tw)
    (hne : fid ≠ tid)
    (hba : a ≤ fw.balance) (hl : a ≤ fw.transactionLimit)
    (h2f : TwoDec fw.balance) (h2t : TwoDec tw.balance) (h2a : TwoDec a) :
    (findWallet (transfer s fid tid uid a d none).1 fid).map Wallet.balance
        = some (fw.balance - a) ∧
    (findWallet (transfer s fid tid uid a d none).1 tid).map Wallet.balance
        = some (tw.balance + a) := by
  have hba' : ¬ fw.balance < a := not_lt.mpr hba
  have hl' : ¬ a > fw.transactionLimit := not_lt.mpr hl
  have hfid : fw.id = fid := findWallet_id hf
  have htid : tw.id = tid := findWallet_id ht
  rw [transfer_success_eq hf ht hba' hl']
  unfold findWallet at hf ht ⊢
  rw [find?_updBal, find?_updBal, find?_updBal, find?_updBal, hf, ht]
  have hfidtid : (fid == tid) = false := beq_eq_false_iff_ne.mpr hne
  have htidfid : (tid == fid) = false := beq_eq_false_iff_ne.mpr (Ne.symm hne)
  refine ⟨?_, ?_⟩
  · simp [hfid, htid, hfidtid, hne, toFixed2_eq_of_twoDec (twoDec_sub h2f h2a)]
  · simp [hfid, htid, htidfid, Ne.symm hne,
      toFixed2_eq_of_twoDec (twoDec_add h2t h2a)]

/-- The balance write of a successful deposit, read back from the store. -/
theorem deposit_balance_eq {s : LedgerState} {wid : String} {w : Wallet}
    {a : ℚ} {pm : String} {d : Option String}
    (hf : findWallet s wid = some w) (hl : ¬ a > w.transactionLimit)
    (h2w : TwoDec w.balance) (h2a : TwoDec a) :
    (findWallet (deposit s wid a pm d none).1 wid).map Wallet.balance
        = some (w.balance + a) := by
  have hwid : w.id = wid := findWallet_id hf
  rw [deposit_success_eq hf hl]
  unfold findWallet at hf ⊢
  rw [find?_updBal, hf]
  simp [hwid, toFixed2_eq_of_twoDec (twoDec_add h2w h2a)]

/-! ### Lemmas for the non-negativity invariant -/

theorem allNonneg_iff {s : LedgerState} :
    allNonneg s = true ↔ ∀ w ∈ s.wallets, 0 ≤ w.balance := by
  simp [allNonneg, List.all_eq_true]

theorem findWallet_mem {s : LedgerState} {wid : String} {w : Wallet}
    (h : findWallet s wid = some w) : w ∈ s.wallets :=
  List.mem_of_find?_eq_some h

theorem nonneg_map_upd {l : List Wallet} (h : ∀ x ∈ l, 0 ≤ x.balance)
    {wid : String} {nb : ℚ} (hnb : 0 ≤ nb) :
    ∀ x ∈ l.map (fun y =>
      if y.id == wid then { y with balance := nb } else y), 0 ≤ x.balance := by
  intro x hx
  rw [List.mem_map] at hx
  obtain ⟨y, hy, rfl⟩ := hx
  by_cases hid : y.id == wid
  · simpa [hid] using hnb
  · simpa [hid] using h y hy

/-- The wallet table after a deposit: either untouched, or with the found
found wallet holding the rounded sum as its balance. -/
theorem deposit_wallets_cases (s : LedgerState) (wid : String) (a : ℚ)
    (pm : String) (d : Option String) (f : Option (Nat × String)) :
    (deposit s wid a pm d f).1.wallets = s.wallets ∨
    ∃ w, findWallet s wid = some w ∧
      (deposit s wid a pm d f).1.wallets =
        s.wallets.map (fun x =>
          if x.id == wid then { x with balance := toFixed2 (w.balance + a) }
          else x) := by
  unfold deposit
  cases hw : findWallet s wid with
  | none => left; rfl
  | some w =>
    by_cases hl : a > w.transactionLimit
    · left
      simp [hl]
    · cases h1 : shouldFail f 1 with
      | some m =>
        left
        simp [hl, h1, createTransaction, updateTransactionStatus]
      | none =>
        cases h2 : shouldFail f 2 with
        | some m =>
          right
          refine ⟨w, rfl, ?_⟩
          simp [hl, h1, h2, createTransaction, updateTransactionStatus,
            updateWalletBalance]
        | none =>
          right
          refine ⟨w, rfl, ?_⟩
          simp [hl, h1, h2, createTransaction, updateTransactionStatus,
            updateWalletBalance]

/-- The wallet table after a transfer: untouched, debited only (the credit
write failed), or debited and credited; the balance check has passed in the
two mutated cases. -/
theorem transfer_wallets_cases (s : LedgerState)
    (fid tid uid : String) (a : ℚ) (d : Option String)
    (f : Option (Nat × String)) :
    (transfer s fid tid uid a d f).1.wallets = s.wallets ∨
    (∃ fw, findWallet s fid = some fw ∧ ¬ fw.balance < a ∧
      (transfer s fid tid uid a d f).1.wallets =
        s.wallets.map (fun x =>
          if x.id == fid then { x with balance := toFixed2 (fw.balance - a) }
          else x)) ∨
    (∃ fw tw, findWallet s fid = some fw ∧ findWallet s tid = some tw ∧
      ¬ fw.balance < a ∧
      (transfer s fid tid uid a d f).1.wallets =
        (s.wallets.map (fun x =>
          if x.id == fid then { x with balance := toFixed2 (fw.balance - a) }
          else x)).map (fun x =>
          if x.id == tid then { x with balance := toFixed2 (tw.balance + a) }
          else x)) := by
  unfold transfer
  cases hg : findWallet s fid with
  | none => left; rfl
  | some fw =>
    cases hh : findWallet s tid with
    | none => left; rfl
    | some tw =>
      by_cases hb : fw.balance < a
      · left
        simp [hb]
      · by_cases hl : a > fw.transactionLimit
        · left
          simp [hb, hl]
        · cases h1 : shouldFail f 1 with
          | some m =>
            left
            simp [hb, hl, h1, createTransaction, updateTransactionStatus]
          | none =>
            cases h2 : shouldFail f 2 with
            | some m =>
              right; left
              refine ⟨fw, rfl, hb, ?_⟩
              simp [hb, hl, h1, h2, createTransaction,
                updateTransactionStatus, updateWalletBalance]
            | none =>
              right; right
              refine ⟨fw, tw, rfl, rfl, hb, ?_⟩
              cases h3 : shouldFail f 3 with
              | some m =>
                simp [hb, hl, h1, h2, h3, createTransaction,
                  updateTransactionStatus, updateWalletBalance]
              | none =>
                cases h4 : shouldFail f 4 with
                | some m =>
                  simp [hb, hl, h1, h2, h3, h4, createTransaction,
                    updateTransactionStatus, updateWalletBalance]
                | none =>
                  simp [hb, hl, h1, h2, h3, h4, createTransaction,
                    updateTransactionStatus, updateWalletBalance]

/-- The wallet table after provisioning: untouched, or extended by a wallet
with balance 0. -/
theorem createWallet_wallets_cases (s : LedgerState) (u wid tier : String) :
    (createWallet s u wid tier).1.wallets = s.wallets ∨
    ∃ w : Wallet, w.balance = 0 ∧
      (createWallet s u wid tier).1.wallets = s.wallets ++ [w] := by
  unfold createWallet
  cases hw : walletFactoryCreate tier with
  | error e => left; rfl
  | ok c =>
    right
    exact ⟨Wallet.mk wid u 0 c.walletType c.transactionLimit, rfl, rfl⟩

/-- Each well-formed operation preserves non-negativity of every stored
balance. -/
theorem allNonneg_applyOp {s : LedgerState} {o : WOp}
    (hs : allNonneg s = true) (ho : opOK o = true) :
    allNonneg (applyOp s o) = true := by
  rw [allNonneg_iff] at hs
  rw [allNonneg_iff]
  cases o with
  | provision u wid tier =>
    rcases createWallet_wallets_cases s u wid tier with hc | ⟨w, hw0, hc⟩
    · unfold applyOp
      rw [hc]
      exact hs
    · unfold applyOp
      rw [hc]
      intro x hx
      rw [List.mem_append] at hx
      rcases hx with hx | hx
      · exact hs x hx
      · rw [List.mem_singleton] at hx
        subst hx
        rw [hw0]
  | dep wid a pm d f =>
    have ha : 0 < a := by simpa [opOK] using ho
    rcases deposit_wallets_cases s wid a pm d f with hc | ⟨w, hw, hc⟩
    · unfold applyOp
      rw [hc]
      exact hs
    · unfold applyOp
      rw [hc]
      have hwb : 0 ≤ w.balance := hs w (findWallet_mem hw)
      exact nonneg_map_upd hs (toFixed2_nonneg (by linarith))
  | xfer fid tid uid a d f =>
    have ha : 0 < a := by
      have := ho
      simp [opOK, Bool.and_eq_true] at this
      exact this.1
    rcases transfer_wallets_cases s fid tid uid a d f with
      hc | ⟨fw, hg, hb, hc⟩ | ⟨fw, tw, hg, hh, hb, hc⟩
    · unfold applyOp
      rw [hc]
      exact hs
    · unfold applyOp
      rw [hc]
      have hle : a ≤ fw.balance := not_lt.mp hb
      exact nonneg_map_upd hs (toFixed2_nonneg (by linarith))
    · unfold applyOp
      rw [hc]
      have hle : a ≤ fw.balance := not_lt.mp hb
      have htb : 0 ≤ tw.balance := hs tw (findWallet_mem hh)
      exact nonneg_map_upd (nonneg_map_upd hs (toFixed2_nonneg (by linarith)))
        (toFixed2_nonneg (by linarith))

/-- Folding well-formed operations preserves non-negativity. -/
theorem allNonneg_foldl (ops : List WOp) :
    ∀ s, ops.all opOK = true → allNonneg s = true →
      allNonneg (ops.foldl applyOp s) = true := by
  induction ops with
  | nil =>
    intro s _ hs
    simpa using hs
  | cons o rest ih =>
    intro s hall hs
    rw [List.all_cons, Bool.and_eq_true] at hall
    rw [List.foldl_cons]
    exact ih _ hall.2 (allNonneg_applyOp hs hall.1)

/-! ### Claim theorems -/

/-- Claim C1, conservation: for every successful transfer of a positive
amount A from wallet X to a distinct wallet Y (both present, A within the
balance of X and within its transaction limit, all quantities two-decimal),
the stored balance of X decreases by exactly A, the stored balance of Y
increases by exactly A, and the sum of the two balances is unchanged. -/
theorem transfer_conservation {s : LedgerState} {fid tid uid : String}
    {fw tw : Wallet} {a : ℚ} {d : Option String}
    (hf : findWallet s fid = some fw) (ht : findWallet s tid = some tw)
    (hne : fid ≠ tid) (_hpos : 0 < a)
    (hba : a ≤ fw.balance) (hl : a ≤ fw.transactionLimit)
    (h2f : TwoDec fw.balance) (h2t : TwoDec tw.balance) (h2a : TwoDec a) :
    (findWallet (transfer s fid tid uid a d none).1 fid).map Wallet.balance
        = some (fw.balance - a) ∧
    (findWallet (transfer s fid tid uid a d none).1 tid).map Wallet.balance
        = some (tw.balance + a) ∧
    (fw.balance - a) + (tw.balance + a) = fw.balance + tw.balance := by
  refine ⟨?_, ?_, by ring⟩
  · exact (transfer_balances_eq hf ht hne hba hl h2f h2t h2a).1
  · exact (transfer_balances_eq hf ht hne hba hl h2f h2t h2a).2

/-- Concrete instantiation of Claim C1. -/
theorem transfer_conservation_witness :
    (findWallet (transfer sAB "wa" "wb" "ub" 200 none none).1 "wa").map
        Wallet.balance = some (wA.balance - 200) ∧
    (findWallet (transfer sAB "wa" "wb" "ub" 200 none none).1 "wb").map
        Wallet.balance = some (wB.balance + 200) ∧
    (wA.balance - 200) + (wB.balance + 200) = wA.balance + wB.balance :=
  transfer_conservation rfl rfl
    (by decide) (by decide) (by decide) (by decide)
    ⟨50000, by norm_num [wA]⟩ ⟨0, by norm_num [wB]⟩ ⟨20000, by norm_num⟩

/-- Claim C4, exact fixed-point arithmetic: on two-decimal balances and
amounts, the stored result of a deposit is exactly the old balance plus
the amount and the stored results of a transfer are exactly the old
balances minus and plus the amount; each result is again exactly
two-decimal, and any drifted approximation of the deposit sum that is
within half a cent of it rounds back to the exact sum, so the binary
floating-point evaluation of the source introduces no drift into the
stored value. -/
theorem fixed_point_exact {s : LedgerState} {wid fid tid uid : String}
    {w fw tw : Wallet} {a : ℚ} {pm : String} {d : Option String} {q : ℚ}
    (hf : findWallet s wid = some w) (hl : ¬ a > w.transactionLimit)
    (h2w : TwoDec w.balance) (h2a : TwoDec a)
    (hg : findWallet s fid = some fw) (hh : findWallet s tid = some tw)
    (hne : fid ≠ tid) (hba : a ≤ fw.balance) (hlt : a ≤ fw.transactionLimit)
    (h2f : TwoDec fw.balance) (h2t : TwoDec tw.balance)
    (hq : |q - (w.balance + a)| < 1 / 200) :
    (findWallet (deposit s wid a pm d none).1 wid).map Wallet.balance
        = some (w.balance + a) ∧
    TwoDec (w.balance + a) ∧
    (findWallet (transfer s fid tid uid a d none).1 fid).map Wallet.balance
        = some (fw.balance - a) ∧
    TwoDec (fw.balance - a) ∧
    (findWallet (transfer s fid tid uid a d none).1 tid).map Wallet.balance
        = some (tw.balance + a) ∧
    TwoDec (tw.balance + a) ∧
    toFixed2 q = w.balance + a :=
  ⟨deposit_balance_eq hf hl h2w h2a, twoDec_add h2w h2a,
   (transfer_balances_eq hg hh hne hba hlt h2f h2t h2a).1, twoDec_sub h2f h2a,
   (transfer_balances_eq hg hh hne hba hlt h2f h2t h2a).2, twoDec_add h2t h2a,
   toFixed2_approx (twoDec_add h2w h2a) hq⟩

/-- Concrete instantiation of Claim C4, with a drifted value 700.003 for
the exact sum 700.00. -/
theorem fixed_point_exact_witness :
    (findWallet (deposit sAB "wa" 200 "UPI" none none).1 "wa").map
        Wallet.balance = some (wA.balance + 200) ∧
    TwoDec (wA.balance + 200) ∧
    (findWallet (transfer sAB "wa" "wb" "ub" 200 none none).1 "wa").map
        Wallet.balance = some (wA.balance - 200) ∧
    TwoDec (wA.balance - 200) ∧
    (findWallet (transfer sAB "wa" "wb" "ub" 200 none none).1 "wb").map
        Wallet.balance = some (wB.balance + 200) ∧
    TwoDec (wB.balance + 200) ∧
    toFixed2 (700003 / 1000) = wA.balance + 200 :=
  fixed_point_exact rfl (by decide) ⟨50000, by norm_num [wA]⟩
    ⟨20000, by norm_num⟩ rfl rfl (by decide) (by decide) (by decide)
    ⟨50000, by norm_num [wA]⟩ ⟨0, by norm_num [wB]⟩
    (by rw [abs_lt]; constructor <;> norm_num [wA])

/-- Claim C2, insufficient-funds rejection: when the requested amount
exceeds the current balance of the sender, the transfer fails with an
InsufficientFunds error carrying the available balance, the requested
amount and the sender wallet id, and the store is returned untouched — no
balance changes and no Transaction record is created. -/
theorem transfer_insufficient_funds {s : LedgerState} {fid tid uid : String}
    {fw tw : Wallet} {a : ℚ} {d : Option String} {f : Option (Nat × String)}
    (hf : findWallet s fid = some fw) (ht : findWallet s tid = some tw)
    (hlt : fw.balance < a) :
    transfer s fid tid uid a d f =
      (s, .error (.insufficientFunds fw.balance a fid)) := by
  unfold transfer
  rw [hf, ht]
  simp [hlt]

/-- Concrete instantiation of Claim C2. -/
theorem transfer_insufficient_funds_witness :
    transfer sAB "wb" "wa" "ua" 10 none none =
      (sAB, .error (.insufficientFunds wB.balance 10 "wb")) :=
  transfer_insufficient_funds rfl rfl (by decide)

/-- Claim C3, limit rejection and error taxonomy: a deposit whose amount
exceeds the transaction limit of the wallet fails with a LimitExceeded
error carrying the limit, the store is returned untouched (balance
unchanged, no Transaction record), and this business-rule rejection — like
InsufficientFunds — is distinguished by the caller from an infrastructure
StoreWriteFailed fault. -/
theorem deposit_limit_rejection (msg : String) {s : LedgerState}
    {wid : String} {w : Wallet} {a : ℚ} {pm : String} {d : Option String}
    {f : Option (Nat × String)}
    (hf : findWallet s wid = some w) (hgt : a > w.transactionLimit) :
    deposit s wid a pm d f = (s, .error (.limitExceeded w.transactionLimit)) ∧
    isBusinessRejection (.limitExceeded w.transactionLimit) = true ∧
    isBusinessRejection (.insufficientFunds w.balance a wid) = true ∧
    isBusinessRejection (.storeWriteFailed msg) = false ∧
    WalletError.limitExceeded w.transactionLimit ≠ .storeWriteFailed msg := by
  refine ⟨?_, rfl, rfl, rfl, by simp⟩
  unfold deposit
  rw [hf]
  simp [hgt]

/-- Concrete instantiation of Claim C3. -/
theorem deposit_limit_rejection_witness :
    deposit sAB "wa" 1500 "UPI" none none =
      (sAB, .error (.limitExceeded wA.transactionLimit)) ∧
    isBusinessRejection (.limitExceeded wA.transactionLimit) = true ∧
    isBusinessRejection (.insufficientFunds wA.balance 1500 "wa") = true ∧
    isBusinessRejection (.storeWriteFailed "connection reset") = false ∧
    WalletError.limitExceeded wA.transactionLimit ≠
      .storeWriteFailed "connection reset" :=
  deposit_limit_rejection "connection reset" rfl (by decide)

/-- Claim C5, mutation-phase failure handling: whenever a step after the
creation of the pending Transaction record fails — either of the two
post-record steps of deposit, or any of the four post-record steps of
transfer — the Transaction record of the operation survives in the store
with status failed and the failure message preserved on it, and the same
error is re-raised to the caller. -/
theorem mutation_failure_audit {s : LedgerState} {wid fid tid uid : String}
    {w fw tw : Wallet} {a : ℚ} {pm : String} {d : Option String}
    {kd kt : Nat} {m1 m2 : String}
    (hf : findWallet s wid = some w) (hl : ¬ a > w.transactionLimit)
    (hkd1 : 1 ≤ kd) (hkd2 : kd ≤ 2)
    (hg : findWallet s fid = some fw) (hh : findWallet s tid = some tw)
    (hba : ¬ fw.balance < a) (hlt : ¬ a > fw.transactionLimit)
    (hkt1 : 1 ≤ kt) (hkt4 : kt ≤ 4) :
    ((deposit s wid a pm d (some (kd, m1))).2 =
        .error (.storeWriteFailed m1) ∧
      ({ id := s.nextTxId, walletId := wid, amount := a, type := "deposit",
         paymentMode := pm, status := "failed", description := d,
         recipientWalletId := none, recipientUserId := none,
         errorMessage := some m1 } : Transaction) ∈
        (deposit s wid a pm d (some (kd, m1))).1.txs) ∧
    ((transfer s fid tid uid a d (some (kt, m2))).2 =
        .error (.storeWriteFailed m2) ∧
      ({ id := s.nextTxId, walletId := fid, amount := a,
         type := "transfer_out", paymentMode := "WalletBalance",
         status := "failed", description := d,
         recipientWalletId := some tid, recipientUserId := some uid,
         errorMessage := some m2 } : Transaction) ∈
        (transfer s fid tid uid a d (some (kt, m2))).1.txs) := by
  constructor
  · interval_cases kd <;>
      (unfold deposit
       rw [hf]
       simp [hl, createTransaction, updateTransactionStatus,
         updateWalletBalance, shouldFail])
  · interval_cases kt <;>
      (unfold transfer
       rw [hg, hh]
       simp [hba, hlt, createTransaction, updateTransactionStatus,
         updateWalletBalance, shouldFail])

/-- Concrete instantiation of Claim C5, failing the balance write of a
deposit and the credit write of a transfer. -/
theorem mutation_failure_audit_witness :
    ((deposit sAB "wa" 200 "UPI" none (some (1, "io error"))).2 =
        .error (.storeWriteFailed "io error") ∧
      ({ id := sAB.nextTxId, walletId := "wa", amount := 200,
         type := "deposit", paymentMode := "UPI", status := "failed",
         description := none, recipientWalletId := none,
         recipientUserId := none,
         errorMessage := some "io error" } : Transaction) ∈
        (deposit sAB "wa" 200 "UPI" none (some (1, "io error"))).1.txs) ∧
    ((transfer sAB "wa" "wb" "ub" 200 none (some (2, "io error 2"))).2 =
        .error (.storeWriteFailed "io error 2") ∧
      ({ id := sAB.nextTxId, walletId := "wa", amount := 200,
         type := "transfer_out", paymentMode := "WalletBalance",
         status := "failed", description := none,
         recipientWalletId := some "wb", recipientUserId := some "ub",
         errorMessage := some "io error 2" } : Transaction) ∈
        (transfer sAB "wa" "wb" "ub" 200 none
          (some (2, "io error 2"))).1.txs) :=
  mutation_failure_audit rfl (by decide) (by decide) (by decide) rfl rfl
    (by decide) (by decide) (by decide) (by decide)

/-- Claim C6, transfer record pair: a successful transfer appends exactly
two Transaction records — a transfer_out on the sender wallet carrying the
recipient wallet id, resolved to success, and a transfer_in on the
recipient wallet carrying the sender wallet id, with the same amount and
status success; and in the run whose final resolution step fails, the
transfer_in record still carries status success while the transfer_out
record is failed, showing the transfer_in row is created already success
before the transfer_out row is resolved. -/
theorem transfer_record_pair (m : String) {s : LedgerState}
    {fid tid uid : String} {fw tw : Wallet} {a : ℚ} {d : Option String}
    (hf : findWallet s fid = some fw) (ht : findWallet s tid = some tw)
    (hba : ¬ fw.balance < a) (hl : ¬ a > fw.transactionLimit)
    (hfresh : ∀ t ∈ s.txs, t.id ≠ s.nextTxId) :
    (transfer s fid tid uid a d none).1.txs =
      s.txs ++
      [{ id := s.nextTxId, walletId := fid, amount := a,
         type := "transfer_out", paymentMode := "WalletBalance",
         status := "success", description := d,
         recipientWalletId := some tid, recipientUserId := some uid,
         errorMessage := none },
       { id := s.nextTxId + 1, walletId := tid, amount := a,
         type := "transfer_in", paymentMode := "WalletBalance",
         status := "success", description := d,
         recipientWalletId := some fid, recipientUserId := none,
         errorMessage := none }] ∧
    (transfer s fid tid uid a d (some (4, m))).1.txs =
      s.txs ++
      [{ id := s.nextTxId, walletId := fid, amount := a,
         type := "transfer_out", paymentMode := "WalletBalance",
         status := "failed", description := d,
         recipientWalletId := some tid, recipientUserId := some uid,
         errorMessage := some m },
       { id := s.nextTxId + 1, walletId := tid, amount := a,
         type := "transfer_in", paymentMode := "WalletBalance",
         status := "success", description := d,
         recipientWalletId := some fid, recipientUserId := none,
         errorMessage := none }] := by
  have hmap : ∀ st em, s.txs.map
      (fun t : Transaction =>
        if t.id = s.nextTxId then
          { t with status := st, errorMessage := em } else t) = s.txs := by
    intro st em
    have : s.txs.map
        (fun t : Transaction =>
          if t.id = s.nextTxId then
            { t with status := st, errorMessage := em } else t) =
        s.txs.map id := by
      apply List.map_congr_left
      intro t htx
      have hne := hfresh t htx
      simp [hne]
    rw [this, List.map_id]
  constructor
  · rw [transfer_success_eq hf ht hba hl]
    simp only [beq_iff_eq]
    rw [hmap]
  · unfold transfer
    rw [hf, ht]
    simp [hba, hl, createTransaction, updateWalletBalance,
      updateTransactionStatus, shouldFail]
    rw [hmap]

/-- Concrete instantiation of Claim C6. -/
theorem transfer_record_pair_witness :
    (transfer sAB "wa" "wb" "ub" 200 none none).1.txs =
      sAB.txs ++
      [{ id := sAB.nextTxId, walletId := "wa", amount := 200,
         type := "transfer_out", paymentMode := "WalletBalance",
         status := "success", description := none,
         recipientWalletId := some "wb", recipientUserId := some "ub",
         errorMessage := none },
       { id := sAB.nextTxId + 1, walletId := "wb", amount := 200,
         type := "transfer_in", paymentMode := "WalletBalance",
         status := "success", description := none,
         recipientWalletId := some "wa", recipientUserId := none,
         errorMessage := none }] ∧
    (transfer sAB "wa" "wb" "ub" 200 none (some (4, "disk full"))).1.txs =
      sAB.txs ++
      [{ id := sAB.nextTxId, walletId := "wa", amount := 200,
         type := "transfer_out", paymentMode := "WalletBalance",
         status := "failed", description := none,
         recipientWalletId := some "wb", recipientUserId := some "ub",
         errorMessage := some "disk full" },
       { id := sAB.nextTxId + 1, walletId := "wb", amount := 200,
         type := "transfer_in", paymentMode := "WalletBalance",
         status := "success", description := none,
         recipientWalletId := some "wa", recipientUserId := none,
         errorMessage := none }] :=
  transfer_record_pair "disk full" rfl rfl (by decide) (by decide)
    (by intro t htx; simp [sAB] at htx)

/-- Claim C7, balance non-negativity invariant: starting from the empty
store — in which every wallet is created with balance 0.00 — any sequence
of provisioning, deposit and transfer operations whose amounts are all
positive and whose transfers name distinct wallets leaves every stored
balance non-negative, whether each operation completes, is rejected by
validation, or fails in its mutation phase. -/
theorem balance_nonneg_invariant (ops : List WOp)
    (h : ops.all opOK = true) :
    allNonneg (ops.foldl applyOp initialState) = true :=
  allNonneg_foldl ops initialState h rfl

/-- Concrete instantiation of Claim C7: provision two wallets, deposit into
one, transfer to the other, with one failing transfer attempt. -/
theorem balance_nonneg_invariant_witness :
    allNonneg ([WOp.provision "ua" "w1" "Basic",
      WOp.dep "w1" 500 "UPI" none none,
      WOp.provision "ub" "w2" "Premium",
      WOp.xfer "w1" "w2" "ub" 200 none none,
      WOp.xfer "w2" "w1" "ua" 900 none none].foldl applyOp initialState)
      = true :=
  balance_nonneg_invariant [WOp.provision "ua" "w1" "Basic",
    WOp.dep "w1" 500 "UPI" none none,
    WOp.provision "ub" "w2" "Premium",
    WOp.xfer "w1" "w2" "ub" 200 none none,
    WOp.xfer "w2" "w1" "ua" 900 none none] (by decide)

/-- Claim C8, deadlock-free two-wallet locking: the transfer lock pair is
the sorted pair of the two wallet ids — the lexicographically smaller id
first, identical for both transfer directions — and in the two-process
lock automaton over one shared sorted pair every reachable joint state is
either final (both transfers done) or has an enabled move, while every
move strictly increases the bounded phase sum; hence two concurrent
opposite-direction transfers over the same wallet pair both complete. -/
theorem transfer_lock_order :
    (∀ a b : String, lockOrder a b = lockOrder b a) ∧
    (∀ a b : String, (lockOrder a b).1 ≤ (lockOrder a b).2) ∧
    twoLockProgress = true ∧ twoLockRanked = true := by
  refine ⟨?_, ?_, by decide, by decide⟩
  · intro a b
    unfold lockOrder
    rcases le_total a b with h | h
    · rw [if_pos h]
      by_cases h2 : b ≤ a
      · have hab : a = b := le_antisymm h h2
        subst hab
        rw [if_pos h]
      · rw [if_neg h2]
    · rw [if_pos h]
      by_cases h2 : a ≤ b
      · have hab : a = b := le_antisymm h2 h
        subst hab
        rw [if_pos h]
      · rw [if_neg h2]
  · intro a b
    unfold lockOrder
    by_cases h : a ≤ b
    · rw [if_pos h]
      exact h
    · rw [if_neg h]
      exact le_of_not_le h

/-- Claim C9, wallet provisioning: createWallet writes a wallet with
balance exactly 0.00 whose limit is derived from the tier by the fixed
table (Basic gives 1000.00, Premium gives 10000.00), and any other tier
fails with UnknownWalletTier, creating no wallet. -/
theorem createWallet_provisioning (s : LedgerState) (u wid tier : String)
    (hb : tier ≠ "Basic") (hp : tier ≠ "Premium") :
    createWallet s u wid "Basic" =
      ({ s with wallets := s.wallets ++
          [{ id := wid, userId := u, balance := 0, walletType := "Basic",
             transactionLimit := 1000 }] },
       .ok { id := wid, userId := u, balance := 0, walletType := "Basic",
             transactionLimit := 1000 }) ∧
    createWallet s u wid "Premium" =
      ({ s with wallets := s.wallets ++
          [{ id := wid, userId := u, balance := 0, walletType := "Premium",
             transactionLimit := 10000 }] },
       .ok { id := wid, userId := u, balance := 0, walletType := "Premium",
             transactionLimit := 10000 }) ∧
    createWallet s u wid tier = (s, .error (.unknownWalletTier tier)) := by
  refine ⟨rfl, rfl, ?_⟩
  unfold createWallet walletFactoryCreate
  rw [if_neg hb, if_neg hp]

/-- Concrete instantiation of Claim C9 at the tier Gold. -/
theorem createWallet_provisioning_witness :
    createWallet sAB "u3" "w3" "Basic" =
      ({ sAB with wallets := sAB.wallets ++
          [{ id := "w3", userId := "u3", balance := 0, walletType := "Basic",
             transactionLimit := 1000 }] },
       .ok { id := "w3", userId := "u3", balance := 0, walletType := "Basic",
             transactionLimit := 1000 }) ∧
    createWallet sAB "u3" "w3" "Premium" =
      ({ sAB with wallets := sAB.wallets ++
          [{ id := "w3", userId := "u3", balance := 0, walletType := "Premium",
             transactionLimit := 10000 }] },
       .ok { id := "w3", userId := "u3", balance := 0, walletType := "Premium",
             transactionLimit := 10000 }) ∧
    createWallet sAB "u3" "w3" "Gold" =
      (sAB, .error (.unknownWalletTier "Gold")) :=
  createWallet_provisioning sAB "u3" "w3" "Gold" (by decide) (by decide)

/-- Claim C10, self-transfer anomaly: when the caller-enforced distinctness
precondition is violated and the sequential body runs on a single wallet
whose balance and limit cover the amount, no validation error is raised
and the net effect is a balance increase by the amount — the credit,
computed from the pre-debit snapshot, overwrites the debit; moreover the
two sorted lock ids coincide, and acquiring the second lock while the
first is held is never enabled under the non-reentrant per-wallet mutex. -/
theorem transfer_self_anomaly {s : LedgerState} {wid uid : String}
    {w : Wallet} {a : ℚ} {d : Option String}
    (hf : findWallet s wid = some w) (hpos : 0 < a)
    (hba : a ≤ w.balance) (hl : a ≤ w.transactionLimit)
    (h2w : TwoDec w.balance) (h2a : TwoDec a) :
    (transfer s wid wid uid a d none).2 =
      .ok { id := s.nextTxId, walletId := wid, amount := a,
            type := "transfer_out", paymentMode := "WalletBalance",
            status := "success", description := d,
            recipientWalletId := some wid, recipientUserId := some uid,
            errorMessage := none } ∧
    (findWallet (transfer s wid wid uid a d none).1 wid).map Wallet.balance
        = some (w.balance + a) ∧
    w.balance + a ≠ w.balance ∧
    lockOrder wid wid = (wid, wid) ∧
    acquireEnabled [wid] wid = false := by
  have hba' : ¬ w.balance < a := not_lt.mpr hba
  have hl' : ¬ a > w.transactionLimit := not_lt.mpr hl
  have hwid : w.id = wid := findWallet_id hf
  rw [transfer_success_eq hf hf hba' hl']
  refine ⟨rfl, ?_, ?_, ?_, ?_⟩
  · unfold findWallet at hf ⊢
    rw [find?_updBal, find?_updBal, hf]
    simp [hwid, toFixed2_eq_of_twoDec (twoDec_add h2w h2a)]
  · have : a ≠ 0 := ne_of_gt hpos
    intro hcontra
    exact this (by linarith)
  · unfold lockOrder
    rw [if_pos le_rfl]
  · simp [acquireEnabled]

/-- Concrete instantiation of Claim C10. -/
theorem transfer_self_anomaly_witness :
    (transfer sAB "wa" "wa" "ua" 200 none none).2 =
      .ok { id := sAB.nextTxId, walletId := "wa", amount := 200,
            type := "transfer_out", paymentMode := "WalletBalance",
            status := "success", description := none,
            recipientWalletId := some "wa", recipientUserId := some "ua",
            errorMessage := none } ∧
    (findWallet (transfer sAB "wa" "wa" "ua" 200 none none).1 "wa").map
        Wallet.balance = some (wA.balance + 200) ∧
    wA.balance + 200 ≠ wA.balance ∧
    lockOrder "wa" "wa" = ("wa", "wa") ∧
    acquireEnabled ["wa"] "wa" = false :=
  transfer_self_anomaly rfl (by decide) (by decide) (by decide)
    ⟨50000, by norm_num [wA]⟩ ⟨20000, by norm_num⟩

end WalletLedger
